import Mathlib

/-!
Verification development for the picture-book generator
(`geminiService` retry/generation layer and the `App` session state machine).

The definitions below are a shallow embedding of the TypeScript source:
pure computations become Lean functions, the remote model is an
attempt-indexed oracle, async handlers are split at their await points,
and thrown JS errors become `Except` values.
-/

set_option maxHeartbeats 1000000

/-- Model of a JS error object as observed by the code: an optional
`message` property, the `String(error)` fallback rendering, and an
optional numeric `status` property. -/
structure ApiError where
  message : Option String
  str : String
  status : Option Nat
deriving DecidableEq, Repr

/-- Substring test on character lists (the semantics of JS
`String.prototype.includes`). -/
def hasSub (pat : List Char) : List Char → Bool
  | [] => pat.isEmpty
  | a :: l => pat.isPrefixOf (a :: l) || hasSub pat l

/-- JS `s.includes(pat)`. -/
def strIncludes (s pat : String) : Bool :=
  hasSub pat.data s.data

/-- `error.message || String(error)` — a falsy (absent or empty) message
falls back to the string rendering of the error. -/
def errorMsgOf (e : ApiError) : String :=
  match e.message with
  | some m => if m = "" then e.str else m
  | none => e.str

/-- `callWithRetry`'s retryability test (newer service, part_000 lines
186-191): message contains 429/500/503/RESOURCE_EXHAUSTED, or
`error.status === 429`. -/
def isRetryable (e : ApiError) : Bool :=
  strIncludes (errorMsgOf e) "429" ||
  strIncludes (errorMsgOf e) "500" ||
  strIncludes (errorMsgOf e) "503" ||
  strIncludes (errorMsgOf e) "RESOURCE_EXHAUSTED" ||
  e.status == some 429

/-- Observable outcome of a retried call: the final result, how many
times the wrapped operation was invoked, and the sequence of backoff
waits (ms) performed between consecutive attempts. -/
structure RetryOut (α : Type) where
  result : Except ApiError α
  attempts : Nat
  delays : List Nat
deriving Repr

/-- `callWithRetry` (part_000 lines 182-200).  The zero-argument async
`fn` is embedded as an attempt-indexed oracle `op`; `k` is the index of
the current attempt.  On failure with retries remaining and a retryable
error the wrapper sleeps `delay`, doubles it and recurses; otherwise the
error is rethrown unchanged. -/
def callWithRetry {α : Type} (op : Nat → Except ApiError α) (retries delay k : Nat) :
    RetryOut α :=
  match op k with
  | .ok v => { result := .ok v, attempts := 1, delays := [] }
  | .error e =>
    match retries with
    | 0 => { result := .error e, attempts := 1, delays := [] }
    | r + 1 =>
      if isRetryable e then
        let rest := callWithRetry op r (delay * 2) (k + 1)
        { result := rest.result, attempts := rest.attempts + 1,
          delays := delay :: rest.delays }
      else { result := .error e, attempts := 1, delays := [] }

/-- A successful attempt returns immediately: one attempt, no waits. -/
theorem callWithRetry_ok {α : Type} (op : Nat → Except ApiError α) {v : α}
    (R D k : Nat) (h : op k = .ok v) :
    callWithRetry op R D k = { result := .ok v, attempts := 1, delays := [] } := by
  cases R <;> simp [callWithRetry, h]

/-- A non-retryable failure is propagated at once, for any budget. -/
theorem callWithRetry_nonretryable {α : Type} (op : Nat → Except ApiError α)
    {e : ApiError} (R D k : Nat) (h : op k = .error e)
    (hr : isRetryable e = false) :
    callWithRetry op R D k = { result := .error e, attempts := 1, delays := [] } := by
  cases R <;> simp [callWithRetry, h, hr]

/-- One retry step: a retryable failure with budget left waits `delay`
and recurses with a doubled delay. -/
theorem callWithRetry_retryStep {α : Type} (op : Nat → Except ApiError α)
    {e : ApiError} (r D k : Nat) (h : op k = .error e)
    (hr : isRetryable e = true) :
    callWithRetry op (r + 1) D k =
      { result := (callWithRetry op r (D * 2) (k + 1)).result,
        attempts := (callWithRetry op r (D * 2) (k + 1)).attempts + 1,
        delays := D :: (callWithRetry op r (D * 2) (k + 1)).delays } := by
  conv_lhs => unfold callWithRetry
  rw [h]
  simp [hr]

/-- If every attempt fails with a retryable error, the wrapper performs
all `R + 1` attempts with strictly doubling waits and ends with the last
attempt's error. -/
theorem callWithRetry_allFail {α : Type} (op : Nat → Except ApiError α)
    (err : Nat → ApiError) (hop : ∀ n, op n = .error (err n))
    (hr : ∀ n, isRetryable (err n) = true) :
    ∀ R D k, callWithRetry op R D k =
      { result := .error (err (k + R)), attempts := R + 1,
        delays := (List.range R).map (fun i => D * 2 ^ i) } := by
  intro R
  induction R with
  | zero =>
    intro D k
    simp [callWithRetry, hop k]
  | succ r ih =>
    intro D k
    rw [callWithRetry_retryStep op r D k (hop k) (hr k), ih (D * 2) (k + 1)]
    have hk : k + 1 + r = k + (r + 1) := by omega
    have hdelays : (List.range (r + 1)).map (fun i => D * 2 ^ i) =
        D :: (List.range r).map (fun i => D * 2 * 2 ^ i) := by
      rw [List.range_succ_eq_map, List.map_cons, List.map_map]
      simp only [pow_zero, mul_one, List.cons.injEq, true_and]
      apply List.map_congr_left
      intro i _
      simp only [Function.comp_apply, pow_succ]
      ring
    rw [hk, hdelays]

/-- A successful final result came from a successful attempt of the
underlying operation. -/
theorem callWithRetry_result_ok {α : Type} (op : Nat → Except ApiError α) :
    ∀ R D k v, (callWithRetry op R D k).result = .ok v → ∃ n, op n = .ok v := by
  intro R
  induction R with
  | zero =>
    intro D k v h
    cases hk : op k with
    | ok w =>
      simp [callWithRetry, hk] at h
      exact ⟨k, by rw [hk, h]⟩
    | error e =>
      simp [callWithRetry, hk] at h
  | succ r ih =>
    intro D k v h
    cases hk : op k with
    | ok w =>
      simp [callWithRetry, hk] at h
      exact ⟨k, by rw [hk, h]⟩
    | error e =>
      by_cases hr : isRetryable e = true
      · rw [callWithRetry_retryStep op r D k hk hr] at h
        exact ih (D * 2) (k + 1) v h
      · simp only [Bool.not_eq_true] at hr
        rw [callWithRetry_nonretryable op (r + 1) D k hk hr] at h
        simp at h

/-- Minimal JSON value model for the text model's parsed response body. -/
inductive Json where
  | null : Json
  | bool (b : Bool) : Json
  | num (n : Int) : Json
  | str (s : String) : Json
  | arr (xs : List Json) : Json
  | obj (fields : List (String × Json)) : Json

/-- Property access `j.k`: defined only on objects, `none` models JS
`undefined`. -/
def getField : Json → String → Option Json
  | .obj fields, k => (fields.find? (fun kv => kv.1 == k)).map (fun kv => kv.2)
  | _, _ => none

/-- JS truthiness of a JSON value (for `parsed.characters || []`). -/
def jsFalsy : Json → Bool
  | .null => true
  | .bool b => !b
  | .num n => n == 0
  | .str s => s == ""
  | .arr _ => false
  | .obj _ => false

/-- The text model's raw response: `response.text` may be absent. -/
structure TextResponse where
  text : Option String
deriving Repr

/-- The five-key character tweak record (types.ts). -/
structure CharacterTweaks where
  hair : String
  clothing : String
  appearance : String
  personality : String
  accessory : String
deriving DecidableEq, Repr

/-- The all-empty tweak record attached to every analyzed character
(part_000 lines 275-281). -/
def emptyTweaks : CharacterTweaks :=
  { hair := "", clothing := "", appearance := "", personality := "",
    accessory := "" }

/-- A character as produced by `analyzeStory`'s normalization
`\x7b ...c, tweaks: \x7b...\x7d \x7d`: the spread of the parsed JSON value plus the
freshly attached tweak record. -/
structure CharacterR where
  base : Json
  tweaks : CharacterTweaks

/-- The value `analyzeStory` resolves with: `\x7b ...parsed, characters \x7d`.
Fields other than `characters` come straight from the parsed body and
are `none` when the body lacks them. -/
structure AnalyzeResult where
  scenes : Option Json
  characters : List CharacterR
  determinedTone : Option Json
  determinedCount : Option Json

/-- The thrown `TypeError` when `parsed.characters` is truthy but has no
`.map` method. -/
def mapTypeError : ApiError :=
  { message := some "parsed.characters.map is not a function",
    str := "TypeError", status := none }

/-- `(parsed.characters || []).map(c => (\x7b ...c, tweaks: \x7b empty \x7d \x7d))`:
absent or falsy yields `[]`; an array is mapped; any other truthy value
throws. -/
def extractCharacters : Option Json → Except ApiError (List CharacterR)
  | none => .ok []
  | some j =>
    if jsFalsy j then .ok []
    else
      match j with
      | .arr xs => .ok (xs.map fun c => { base := c, tweaks := emptyTweaks })
      | _ => .error mapTypeError

/-- The literal `'\x7b\x7d'` used as the default parse input. -/
def emptyObjLit : String := "\x7b\x7d"

/-- `response.text || '\x7b\x7d'`: an absent or empty body is replaced by the
empty-object literal. -/
def bodyTextOf (resp : TextResponse) : String :=
  match resp.text with
  | none => emptyObjLit
  | some t => if t = "" then emptyObjLit else t

/-- Lines 270-283 of part_000: `JSON.parse` (an abstract platform
function `parse`; a throw is an `error`) followed by the character
normalization and the spread into the result object. -/
def analyzeStoryBody (parse : String → Except ApiError Json)
    (resp : TextResponse) : Except ApiError AnalyzeResult :=
  match parse (bodyTextOf resp) with
  | .error e => .error e
  | .ok parsed =>
    match extractCharacters (getField parsed "characters") with
    | .error e => .error e
    | .ok cs =>
      .ok { scenes := getField parsed "scenes"
            characters := cs
            determinedTone := getField parsed "determinedTone"
            determinedCount := getField parsed "determinedCount" }

/-- `sceneCount: number | 'auto'` as a tagged variant. -/
inductive NumOrAuto where
  | auto : NumOrAuto
  | num (n : Int) : NumOrAuto
deriving DecidableEq, Repr

/-- `tone: string | 'auto'` as a tagged variant. -/
inductive StrOrAuto where
  | auto : StrOrAuto
  | str (s : String) : StrOrAuto
deriving DecidableEq, Repr

/-- A single apostrophe character, used inside prompt literals. -/
def apostrophe : String := (Char.ofNat 39).toString

/-- `countInstruction` (part_000 lines 210-212). -/
def countInstruction : NumOrAuto → String
  | .auto => "Decide on an appropriate number of sequential book pages (between 5 and 40) based on the story length and emotional arc."
  | .num n => "Break the story down into exactly " ++ toString n ++ " sequential book pages."

/-- `toneInstruction` (part_000 lines 214-216). -/
def toneInstruction : StrOrAuto → String
  | .auto => "Determine an appropriate artistic tone (e.g., whimsical, noir, watercolor, cinematic) that fits the story" ++ apostrophe ++ "s soul."
  | .str t => "The artistic tone for this book is \"" ++ t ++ "\"."

/-- The `contents` template literal of the analysis request (part_000
lines 220-232). -/
def analyzeContents (story : String) (sceneCount : NumOrAuto)
    (tone : StrOrAuto) : String :=
  "Analyze this story and prepare it for illustration.\n      \n      Instructions:\n      1. " ++
  countInstruction sceneCount ++ "\n      2. " ++ toneInstruction tone ++
  "\n      3. For each page, provide:\n         - \"storyText\": The text to be printed on the page.\n         - \"description\": A detailed visual description for an illustrator.\n      4. Identify all recurring main characters.\n      \n      Story: " ++
  story ++ "\n      \n      Return the data in a structured JSON format."

/-- `analyzeStory` (part_000 lines 202-285): the remote text model is an
oracle keyed by the request contents and the attempt index; the whole
request body (remote call, parse, normalization) runs under
`callWithRetry` with 4 retries and a 5000 ms base delay. -/
def analyzeStory (remote : String → Nat → Except ApiError TextResponse)
    (parse : String → Except ApiError Json) (story : String)
    (sceneCount : NumOrAuto) (tone : StrOrAuto) : RetryOut AnalyzeResult :=
  callWithRetry (fun n =>
    match remote (analyzeContents story sceneCount tone) n with
    | .error e => .error e
    | .ok resp => analyzeStoryBody parse resp) 4 5000 0

/-- A content part, both of requests and of responses: plain text or
inline base64 image data with a MIME type. -/
inductive GenPart where
  | text (s : String) : GenPart
  | inlineData (mimeType data : String) : GenPart
deriving DecidableEq, Repr

/-- A candidate's content: `parts` may be absent. -/
structure Content where
  parts : Option (List GenPart)
deriving DecidableEq, Repr

/-- One response candidate: `content` may be absent. -/
structure Candidate where
  content : Option Content
deriving DecidableEq, Repr

/-- The image model's raw response. -/
structure ImageResponse where
  candidates : Option (List Candidate)
deriving DecidableEq, Repr

/-- `response.candidates?.[0]?.content?.parts || []`. -/
def responseParts (r : ImageResponse) : List GenPart :=
  match r.candidates with
  | none => []
  | some [] => []
  | some (c :: _) =>
    match c.content with
    | none => []
    | some ct => ct.parts.getD []

/-- The first part carrying `inlineData`, as scanned by the `for` loop
over the parts (part_000 lines 323-327 and 366-370). -/
def firstInline : List GenPart → Option (String × String)
  | [] => none
  | GenPart.text _ :: rest => firstInline rest
  | GenPart.inlineData m d :: _ => some (m, d)

/-- The terminal "no image data" error thrown when no inline part is
found. -/
def noImageError : ApiError :=
  { message := some "No image data returned from API",
    str := "Error: No image data returned from API", status := none }

/-- Re-encoding of the first inline payload as a PNG data URI; absence
throws the terminal error.  The part's own MIME type is not consulted
for the URI prefix. -/
def extractImageUrl (r : ImageResponse) : Except ApiError String :=
  match firstInline (responseParts r) with
  | some (_, d) => .ok ("data:image/png;base64," ++ d)
  | none => .error noImageError

/-- The session `Character` (types.ts), with the optional user upload. -/
structure Character where
  id : String
  name : String
  description : String
  sheetUrl : Option String
  uploadUrl : Option String
  isGenerating : Option Bool
  tweaks : CharacterTweaks
deriving DecidableEq, Repr

/-- `Object.entries(tweaks)` in declaration (= insertion) order. -/
def tweaksEntries (t : CharacterTweaks) : List (String × String) :=
  [("hair", t.hair), ("clothing", t.clothing), ("appearance", t.appearance),
   ("personality", t.personality), ("accessory", t.accessory)]

/-- The flattened "key: value" clause of the non-empty tweaks
(part_000 lines 294-297). -/
def tweakStr (t : CharacterTweaks) : String :=
  String.intercalate ", "
    (((tweaksEntries t).filter (fun kv => !(kv.2 == ""))).map
      (fun kv => kv.1 ++ ": " ++ kv.2))

/-- The character-sheet text prompt (part_000 line 299). -/
def characterSheetTextPrompt (c : Character) (tone styleTags : String) : String :=
  let ts := tweakStr c.tweaks
  "Character Sheet for " ++ c.name ++ ". Basic Concept: " ++ c.description ++
    ". " ++
    (if !(ts == "") then "Specific features: " ++ ts ++ "." else "") ++
    " Professional reference sheet showing front, side, and back views, solid white background, " ++
    tone ++ " tone, " ++ styleTags ++
    ". High quality character design. Use the attached image as the base reference for features and clothing."

/-- JS line terminators, which `.` in a regex without the `s` flag never
matches. -/
def isLineTerminator (c : Char) : Bool :=
  c == Char.ofNat 10 || c == Char.ofNat 13 ||
  c == Char.ofNat 8232 || c == Char.ofNat 8233

/-- The match of `uploadUrl` against
`/^data:(image\/[a-z]+);base64,(.+)$/` (part_000 line 304), returning
the two capture groups.  Greedy `[a-z]+` is the maximal lowercase run
(`;` is not in the class, so no backtracking arises), and `(.+)$` is a
non-empty remainder free of line terminators. -/
def matchDataImage (s : String) : Option (String × String) :=
  let cs := s.data
  let pre := "data:image/".data
  if pre.isPrefixOf cs then
    let r1 := cs.drop pre.length
    let sub := r1.takeWhile (fun c => decide (Char.ofNat 97 ≤ c) && decide (c ≤ Char.ofNat 122))
    let r2 := r1.drop sub.length
    let marker := ";base64,".data
    if sub.length > 0 && marker.isPrefixOf r2 then
      let payload := r2.drop marker.length
      if payload.length > 0 && payload.all (fun c => !(isLineTerminator c)) then
        some (String.mk ("image/".data ++ sub), String.mk payload)
      else none
    else none
  else none

/-- The request parts of `generateCharacterSheet` (part_000 lines
301-313): the text prompt, preceded by the decoded upload when the
(truthy) `uploadUrl` matches the data-URI pattern. -/
def characterSheetParts (c : Character) (tone styleTags : String) : List GenPart :=
  let base : List GenPart := [GenPart.text (characterSheetTextPrompt c tone styleTags)]
  match c.uploadUrl with
  | none => base
  | some u =>
    if u = "" then base
    else
      match matchDataImage u with
      | none => base
      | some (mime, payload) => GenPart.inlineData mime payload :: base

/-- `generateCharacterSheet` (part_000 lines 287-330): request parts are
built, the image model oracle is consulted (keyed by the parts and the
attempt index), and the first inline payload is re-encoded; all under
`callWithRetry` with 4 retries / 5000 ms base. -/
def generateCharacterSheet
    (remote : List GenPart → Nat → Except ApiError ImageResponse)
    (character : Character) (tone styleTags : String) : RetryOut String :=
  callWithRetry (fun n =>
    match remote (characterSheetParts character tone styleTags) n with
    | .error e => .error e
    | .ok resp => extractImageUrl resp) 4 5000 0

/-- The five-axis atmosphere vector (types.ts). -/
structure SceneSliders where
  tone : Int
  excitement : Int
  happiness : Int
  energy : Int
  tension : Int
deriving DecidableEq, Repr

/-- The session `Scene` (types.ts). -/
structure Scene where
  id : Int
  description : String
  storyText : String
  imageUrl : Option String
  isGenerating : Option Bool
  sliders : Option SceneSliders
deriving DecidableEq, Repr

/-- The character-context clause of the scene prompt (part_000 lines
342-348). -/
def characterContext (chars : List Character) : String :=
  String.intercalate ", " (chars.map fun c =>
    let ts := tweakStr c.tweaks
    c.name ++ " (" ++ c.description ++
      (if !(ts == "") then ", with " ++ ts else "") ++ ")")

/-- `sliderContext` (part_000 lines 350-353): empty when no sliders are
passed, otherwise the atmosphere clause. -/
def sliderContext : Option SceneSliders → String
  | none => ""
  | some s =>
    " Atmosphere: Tone:" ++ toString s.tone ++
      ", Excitement:" ++ toString s.excitement ++
      ", Happiness:" ++ toString s.happiness ++
      ", Energy:" ++ toString s.energy ++
      ", Tension:" ++ toString s.tension ++ "."

/-- The scene prompt up to and including the style clause (part_000 line
356, before `sliderContext` is appended). -/
def scenePromptHead (scene : Scene) (chars : List Character)
    (tone styleTags : String) (useStoryText : Bool) : String :=
  let primaryPrompt := if useStoryText then scene.storyText else scene.description
  "CHILDREN" ++ apostrophe ++ "S BOOK ILLUSTRATION. Scene focus: " ++
    primaryPrompt ++ ". Characters present: " ++ characterContext chars ++
    ". Style: " ++ tone ++ ", " ++ styleTags ++ "."

/-- The full illustration prompt (part_000 line 356). -/
def scenePrompt (scene : Scene) (chars : List Character)
    (tone styleTags : String) (sliders : Option SceneSliders)
    (useStoryText : Bool) : String :=
  scenePromptHead scene chars tone styleTags useStoryText ++
    sliderContext sliders ++ " Consistent character appearances. 4K quality."

/-- `generateSceneImage` (part_000 lines 332-373): a text-only request
built from the scene prompt, with the same response handling and retry
policy as the character sheet. -/
def generateSceneImage
    (remote : List GenPart → Nat → Except ApiError ImageResponse)
    (scene : Scene) (characters : List Character) (tone styleTags : String)
    (sliders : Option SceneSliders) (useStoryText : Bool) : RetryOut String :=
  callWithRetry (fun n =>
    match remote [GenPart.text (scenePrompt scene characters tone styleTags sliders useStoryText)] n with
    | .error e => .error e
    | .ok resp => extractImageUrl resp) 4 5000 0

/-- Audience bands (the deployed constants.ts variant, including the
Adult band used by App's selector). -/
inductive AgeGroup where
  | a2to4 : AgeGroup
  | a5to7 : AgeGroup
  | a8to10 : AgeGroup
  | adult : AgeGroup
deriving DecidableEq, Repr

/-- The age-group → style-tag mapping (constants.ts). -/
def AGE_STYLE_TAGS : AgeGroup → String
  | .a2to4 => "Chunky shapes, bold black outlines, high-contrast, minimalist backgrounds, vibrant primary colors, simple character features."
  | .a5to7 => "Watercolor and colored pencil textures, gentle gradients, whimsical atmosphere, soft lighting, medium detail levels."
  | .a8to10 => "Cinematic lighting, 3D-render aesthetic, detailed digital painting, depth of field, complex textures, realistic proportions within an illustrative style."
  | .adult => "Gothic oil painting textures, dramatic chiaroscuro lighting, intricate details, mature color palettes, realistic but highly stylized character designs, moody atmosphere."

/-- Model identifiers (constants.ts). -/
def DEFAULT_MODELS_text : String := "gemini-3-flash-preview"

/-- Image model identifier (constants.ts). -/
def DEFAULT_MODELS_image : String := "gemini-2.5-flash-image"

/-- Workflow phases (types.ts `AppStep`). -/
inductive AppStep where
  | input : AppStep
  | analysis : AppStep
  | characters : AppStep
  | scenes : AppStep
deriving DecidableEq, Repr

/-- The story parameters held by App: `tone` and `sceneCount` hold
either `'auto'` or a fixed value at runtime. -/
structure StoryParams where
  story : String
  ageGroup : AgeGroup
  tone : StrOrAuto
  sceneCount : NumOrAuto
deriving DecidableEq, Repr

/-- The App component's state relevant to the core: workflow step, the
batch `loading` flag, the surfaced error banner, the usage counter, the
story parameters, and the two entity lists. -/
structure AppState where
  step : AppStep
  loading : Bool
  errorMessage : Option String
  sessionUsage : Nat
  params : StoryParams
  characters : List Character
  scenes : List Scene
deriving DecidableEq, Repr

/-- The initial / reset story parameters (part_000 lines 385-390, 408). -/
def defaultParams : StoryParams :=
  { story := "", ageGroup := .a5to7, tone := .auto, sceneCount := .auto }

/-- `handleReset` (part_000 lines 403-410): guarded by a confirm dialog
when not at Input; on acceptance the step, entity lists, params and
error banner are reset.  `sessionUsage` and `loading` are untouched. -/
def handleReset (confirmOk : Bool) (st : AppState) : AppState :=
  if st.step ≠ AppStep.input ∧ confirmOk = false then st
  else
    { st with step := .input, characters := [], scenes := [],
              params := defaultParams, errorMessage := none }

/-- The quota banner text (part_000 line 416). -/
def quotaMessage : String :=
  "Architect Quota Exceeded. The Free Tier of the Gemini API allows approximately 15 images per minute. We are retrying automatically with delays, but if this persists, please wait 60 seconds or check your project billing status at ai.google.dev/gemini-api/docs/billing"

/-- `handleError` (part_000 lines 412-420): quota-pattern errors get the
dedicated banner, anything else a truncated generic banner. -/
def handleError (e : ApiError) (st : AppState) : AppState :=
  if strIncludes (errorMsgOf e) "429" || strIncludes (errorMsgOf e) "quota" ||
      strIncludes (errorMsgOf e) "RESOURCE_EXHAUSTED" then
    { st with errorMessage := some quotaMessage }
  else
    { st with errorMessage := some ("An unexpected error occurred: " ++ (errorMsgOf e).take 100) }

/-- `params.tone as string`: the runtime value is already a string. -/
def strOrAutoStr : StrOrAuto → String
  | .auto => "auto"
  | .str s => s

/-- The `setCharacters` updater marking a character as generating. -/
def markCharGenerating (charId : String) (cs : List Character) : List Character :=
  cs.map fun c => if c.id == charId then { c with isGenerating := some true } else c

/-- The `setCharacters` updater storing a finished sheet and clearing
the flag. -/
def setCharSheet (charId url : String) (cs : List Character) : List Character :=
  cs.map fun c =>
    if c.id == charId then { c with sheetUrl := some url, isGenerating := some false }
    else c

/-- The `setCharacters` updater of the failure path, clearing the flag
only. -/
def clearCharGenerating (charId : String) (cs : List Character) : List Character :=
  cs.map fun c => if c.id == charId then { c with isGenerating := some false } else c

/-- `handleGenerateCharacter` up to its await point (part_000 lines
465-469): look the character up, clear the banner and mark it
generating; a missing id returns unchanged. -/
def handleGenerateCharacterStart (charId : String) (st : AppState) : AppState :=
  match st.characters.find? (fun c => c.id == charId) with
  | none => st
  | some _ =>
    { st with errorMessage := none,
              characters := markCharGenerating charId st.characters }

/-- The success continuation of `handleGenerateCharacter` (part_000
lines 471-473), applied to whatever the state is when the promise
resolves: store the sheet by id and bump the usage counter. -/
def handleGenerateCharacterFinishOk (charId url : String) (st : AppState) : AppState :=
  { st with characters := setCharSheet charId url st.characters,
            sessionUsage := st.sessionUsage + 1 }

/-- The failure continuation of `handleGenerateCharacter` (part_000
lines 474-477): surface the error and clear the flag by id. -/
def handleGenerateCharacterFinishErr (charId : String) (e : ApiError)
    (st : AppState) : AppState :=
  let st1 := handleError e st
  { st1 with characters := clearCharGenerating charId st1.characters }

/-- JS truthiness of `scene.imageUrl` (the `continue` guard). -/
def jsTruthyStr : Option String → Bool
  | none => false
  | some s => !(s == "")

/-- The `setScenes` updater marking a scene as generating. -/
def markSceneGenerating (sceneId : Int) (ss : List Scene) : List Scene :=
  ss.map fun s => if s.id == sceneId then { s with isGenerating := some true } else s

/-- The `setScenes` updater storing a finished image and clearing the
flag. -/
def setSceneImage (sceneId : Int) (url : String) (ss : List Scene) : List Scene :=
  ss.map fun s =>
    if s.id == sceneId then { s with imageUrl := some url, isGenerating := some false }
    else s

/-- The `setScenes` updater clearing the flag only. -/
def clearSceneGenerating (sceneId : Int) (ss : List Scene) : List Scene :=
  ss.map fun s => if s.id == sceneId then { s with isGenerating := some false } else s

/-- The argument tuple of one `generateSceneImage` invocation by App;
`sliders`/`useStoryText` record exactly what the call site passed
(`none`/`false` when the parameters were omitted). -/
structure SceneImageArgs where
  scene : Scene
  characters : List Character
  tone : String
  styleTags : String
  sliders : Option SceneSliders
  useStoryText : Bool
deriving DecidableEq, Repr

/-- The body of the `for` loop of `generateAllScenes` (part_000 lines
507-514) over the scene snapshot captured by the closure.  `gen` is the
resolved outcome of the awaited `generateSceneImage` call.  Already
illustrated scenes are skipped; a success stores the image, clears the
flag, bumps usage and continues; the first failure aborts the remainder
(the single outer catch surfaces the error — nothing clears the failing
scene's flag).  Also returns the list of performed invocations. -/
def genScenesLoop (gen : SceneImageArgs → Except ApiError String) :
    List Scene → AppState → AppState × List SceneImageArgs
  | [], st => (st, [])
  | scene :: rest, st =>
    if jsTruthyStr scene.imageUrl then genScenesLoop gen rest st
    else
      let st1 := { st with scenes := markSceneGenerating scene.id st.scenes }
      let args : SceneImageArgs :=
        { scene := scene, characters := st.characters,
          tone := strOrAutoStr st.params.tone,
          styleTags := AGE_STYLE_TAGS st.params.ageGroup,
          sliders := none, useStoryText := false }
      match gen args with
      | .ok url =>
        let st2 := { st1 with scenes := setSceneImage scene.id url st1.scenes,
                              sessionUsage := st1.sessionUsage + 1 }
        let out := genScenesLoop gen rest st2
        (out.1, args :: out.2)
      | .error e => (handleError e st1, [args])

/-- `generateAllScenes` (part_000 lines 502-520): enter the Scenes step,
set loading, clear the banner, run the sequential loop over the scene
snapshot, and finally clear loading. -/
def generateAllScenes (gen : SceneImageArgs → Except ApiError String)
    (st : AppState) : AppState × List SceneImageArgs :=
  let st0 := { st with step := AppStep.scenes, loading := true,
                       errorMessage := none }
  let out := genScenesLoop gen st.scenes st0
  ({ out.1 with loading := false }, out.2)

/-- `handleRegenerateScene` (part_000 lines 522-540): single-scene
regeneration, passing the scene's own sliders and the chosen prompt
source; both outcome paths clear the flag.  The source asserts the
scene exists (`!`); a missing id is modelled as a no-op. -/
def handleRegenerateScene (gen : SceneImageArgs → Except ApiError String)
    (sceneId : Int) (useStoryText : Bool) (st : AppState) :
    AppState × List SceneImageArgs :=
  match st.scenes.find? (fun s => s.id == sceneId) with
  | none => (st, [])
  | some scene =>
    let st1 := { st with loading := true, errorMessage := none,
                         scenes := markSceneGenerating sceneId st.scenes }
    let args : SceneImageArgs :=
      { scene := scene, characters := st.characters,
        tone := strOrAutoStr st.params.tone,
        styleTags := AGE_STYLE_TAGS st.params.ageGroup,
        sliders := scene.sliders, useStoryText := useStoryText }
    match gen args with
    | .ok url =>
      ({ st1 with scenes := setSceneImage sceneId url st1.scenes,
                  sessionUsage := st1.sessionUsage + 1, loading := false },
       [args])
    | .error e =>
      let st2 := handleError e st1
      ({ st2 with scenes := clearSceneGenerating sceneId st2.scenes,
                  loading := false }, [args])

/-- C2: for every retry configuration (retries = R, base delay = D) and
every operation failing on every attempt with a retryable error,
`callWithRetry` performs exactly R + 1 attempts, waits exactly
D, 2D, 4D, ..., 2^(R-1)·D between consecutive attempts (strictly
doubling, no jitter), and then propagates the final attempt's error. -/
theorem retry_retryable_exhaustion {α : Type} (op : Nat → Except ApiError α)
    (err : Nat → ApiError) (R D : Nat)
    (hop : ∀ n, op n = .error (err n))
    (hr : ∀ n, isRetryable (err n) = true) :
    callWithRetry op R D 0 =
      { result := .error (err R), attempts := R + 1,
        delays := (List.range R).map (fun i => D * 2 ^ i) } := by
  have h := callWithRetry_allFail op err hop hr R D 0
  simpa using h

/-- A retryable error used by the retry-exhaustion witness. -/
def retryErrW : ApiError :=
  { message := some "HTTP 429 too many requests", str := "", status := none }

/-- Witness for the retry-exhaustion theorem at R = 2, D = 100. -/
theorem retry_retryable_exhaustion_witness :
    (∀ n : Nat, (fun _ : Nat => (Except.error retryErrW : Except ApiError String)) n
        = .error retryErrW) ∧
    (∀ n : Nat, isRetryable retryErrW = true) ∧
    callWithRetry (fun _ => (.error retryErrW : Except ApiError String)) 2 100 0 =
      { result := .error retryErrW, attempts := 3, delays := [100, 200] } := by
  have hre : isRetryable retryErrW = true := by decide
  have h := retry_retryable_exhaustion
    (fun _ => (.error retryErrW : Except ApiError String))
    (fun _ => retryErrW) 2 100 (fun _ => rfl) (fun _ => hre)
  refine ⟨fun _ => rfl, fun _ => hre, ?_⟩
  rw [h]
  rfl

/-- C6: an operation failing with a non-retryable error is attempted
exactly once, whatever the configured retry count, and the error object
is propagated unchanged with no backoff wait. -/
theorem retry_nonretryable_single_attempt {α : Type}
    (op : Nat → Except ApiError α) (e : ApiError) (R D : Nat)
    (h : op 0 = .error e) (hr : isRetryable e = false) :
    callWithRetry op R D 0 = { result := .error e, attempts := 1, delays := [] } :=
  callWithRetry_nonretryable op R D 0 h hr

/-- A terminal (non-retryable) error used by the single-attempt witness. -/
def termErrW : ApiError :=
  { message := some "Invalid request payload", str := "", status := none }

/-- Witness for the single-attempt theorem at R = 4, D = 5000. -/
theorem retry_nonretryable_single_attempt_witness :
    ((fun _ : Nat => (Except.error termErrW : Except ApiError String)) 0
        = .error termErrW) ∧
    isRetryable termErrW = false ∧
    callWithRetry (fun _ => (.error termErrW : Except ApiError String)) 4 5000 0 =
      { result := .error termErrW, attempts := 1, delays := [] } :=
  ⟨rfl, by decide,
   retry_nonretryable_single_attempt
     (fun _ => (.error termErrW : Except ApiError String)) termErrW 4 5000 rfl
     (by decide)⟩

/-- Every character list produced by the normalization carries the
all-empty tweak record. -/
theorem extractCharacters_tweaks (o : Option Json) (cs : List CharacterR)
    (h : extractCharacters o = .ok cs) : ∀ c ∈ cs, c.tweaks = emptyTweaks := by
  intro c hc
  cases o with
  | none =>
    simp only [extractCharacters] at h
    cases h
    simp at hc
  | some j =>
    simp only [extractCharacters] at h
    split at h
    · cases h
      simp at hc
    · split at h
      · cases h
        obtain ⟨x, hx, hxc⟩ := List.mem_map.1 hc
        rw [← hxc]
      · simp at h

/-- A successful `analyzeStoryBody` only contains normalized
characters. -/
theorem analyzeStoryBody_characters (parse : String → Except ApiError Json)
    (resp : TextResponse) (res : AnalyzeResult)
    (h : analyzeStoryBody parse resp = .ok res) :
    ∀ c ∈ res.characters, c.tweaks = emptyTweaks := by
  unfold analyzeStoryBody at h
  cases hp : parse (bodyTextOf resp) with
  | error e => simp only [hp] at h; exact absurd h (by simp)
  | ok parsed =>
    simp only [hp] at h
    cases hcs : extractCharacters (getField parsed "characters") with
    | error e => simp only [hcs] at h; exact absurd h (by simp)
    | ok cs =>
      simp only [hcs, Except.ok.injEq] at h
      rw [← h]
      exact extractCharacters_tweaks _ _ hcs

/-- C8: every character in a successful `analyzeStory` result carries a
tweaks record with all five keys present and empty, whatever the model
responded. -/
theorem analyzeStory_characters_have_empty_tweaks
    (remote : String → Nat → Except ApiError TextResponse)
    (parse : String → Except ApiError Json) (story : String)
    (sceneCount : NumOrAuto) (tone : StrOrAuto) (res : AnalyzeResult)
    (h : (analyzeStory remote parse story sceneCount tone).result = .ok res) :
    ∀ c ∈ res.characters,
      c.tweaks.hair = "" ∧ c.tweaks.clothing = "" ∧ c.tweaks.appearance = "" ∧
        c.tweaks.personality = "" ∧ c.tweaks.accessory = "" := by
  intro c hc
  unfold analyzeStory at h
  obtain ⟨n, hn⟩ := callWithRetry_result_ok _ 4 5000 0 res h
  cases hr : remote (analyzeContents story sceneCount tone) n with
  | error e => rw [hr] at hn; simp at hn
  | ok resp =>
    rw [hr] at hn
    have := analyzeStoryBody_characters parse resp res hn c hc
    rw [this]
    exact ⟨rfl, rfl, rfl, rfl, rfl⟩

/-- The parse error raised on an unparseable body. -/
def parseFailErr : ApiError :=
  { message := some "Unexpected token", str := "SyntaxError: Unexpected token",
    status := none }

/-- A parse oracle that accepts only the empty-object literal. -/
def parseStub : String → Except ApiError Json := fun s =>
  if s = emptyObjLit then .ok (.obj []) else .error parseFailErr

/-- A character object as the model returns it. -/
def charJsonW : Json :=
  .obj [("id", .str "c1"), ("name", .str "Maya"),
        ("description", .str "a curious fox")]

/-- A well-formed analysis body used by the C8 witness. -/
def analyzeRespBodyW : Json :=
  .obj [("determinedTone", .str "whimsical"), ("determinedCount", .num 6),
        ("scenes", .arr []), ("characters", .arr [charJsonW])]

/-- A parse oracle for the C8 witness body. -/
def parseW : String → Except ApiError Json := fun s =>
  if s = "BODY_W" then .ok analyzeRespBodyW else .error parseFailErr

/-- A remote text model returning the C8 witness body. -/
def remoteW : String → Nat → Except ApiError TextResponse := fun _ _ =>
  .ok { text := some "BODY_W" }

/-- The result `analyzeStory` produces for the C8 witness body. -/
def resW : AnalyzeResult :=
  { scenes := some (.arr []),
    characters := [{ base := charJsonW, tweaks := emptyTweaks }],
    determinedTone := some (.str "whimsical"),
    determinedCount := some (.num 6) }

/-- Witness for the empty-tweaks theorem on a concrete model response. -/
theorem analyzeStory_characters_have_empty_tweaks_witness :
    (analyzeStory remoteW parseW "a story" (NumOrAuto.num 6)
        (StrOrAuto.str "whimsical")).result = .ok resW ∧
    (({ base := charJsonW, tweaks := emptyTweaks } : CharacterR).tweaks.hair = "" ∧
     ({ base := charJsonW, tweaks := emptyTweaks } : CharacterR).tweaks.clothing = "" ∧
     ({ base := charJsonW, tweaks := emptyTweaks } : CharacterR).tweaks.appearance = "" ∧
     ({ base := charJsonW, tweaks := emptyTweaks } : CharacterR).tweaks.personality = "" ∧
     ({ base := charJsonW, tweaks := emptyTweaks } : CharacterR).tweaks.accessory = "") := by
  refine ⟨rfl, ?_⟩
  exact analyzeStory_characters_have_empty_tweaks remoteW parseW "a story"
    (NumOrAuto.num 6) (StrOrAuto.str "whimsical") resW rfl
    { base := charJsonW, tweaks := emptyTweaks } (List.Mem.head _)

/-- A remote text model answering with a non-JSON body. -/
def remoteGarbage : String → Nat → Except ApiError TextResponse := fun _ _ =>
  .ok { text := some "garbage" }

/-- C3 counterexample: a non-empty, unparseable body makes
`analyzeStory` fail with the propagated parse error — it is not treated
as an empty object and the call does not resolve with empty lists. -/
theorem analyzeStory_nonjson_body_fails :
    (analyzeStory remoteGarbage parseStub "any story" NumOrAuto.auto
        StrOrAuto.auto).result = .error parseFailErr := rfl

/-- C3 (amended): only an absent or empty body is replaced by the
empty-object literal, yielding an empty character list and absent
scenes/tone/count fields. -/
theorem analyzeStory_empty_body_empty_result
    (remote : String → Nat → Except ApiError TextResponse)
    (parse : String → Except ApiError Json) (story : String)
    (sceneCount : NumOrAuto) (tone : StrOrAuto) (resp : TextResponse)
    (hremote : remote (analyzeContents story sceneCount tone) 0 = .ok resp)
    (hbody : resp.text = none ∨ resp.text = some "")
    (hparse : parse emptyObjLit = .ok (Json.obj [])) :
    (analyzeStory remote parse story sceneCount tone).result =
      .ok { scenes := none, characters := [], determinedTone := none,
            determinedCount := none } := by
  have hbt : bodyTextOf resp = emptyObjLit := by
    rcases hbody with h | h <;> simp [bodyTextOf, h]
  unfold analyzeStory
  have hok : (fun n =>
      match remote (analyzeContents story sceneCount tone) n with
      | .error e => (.error e : Except ApiError AnalyzeResult)
      | .ok r => analyzeStoryBody parse r) 0 =
      .ok { scenes := none, characters := [], determinedTone := none,
            determinedCount := none } := by
    simp only [hremote]
    simp [analyzeStoryBody, hbt, hparse, extractCharacters, getField]
  rw [callWithRetry_ok _ 4 5000 0 hok]

/-- A remote text model whose response has no body. -/
def remoteEmptyBody : String → Nat → Except ApiError TextResponse := fun _ _ =>
  .ok { text := none }

/-- Witness for the amended C3 theorem on an absent body. -/
theorem analyzeStory_empty_body_empty_result_witness :
    (remoteEmptyBody (analyzeContents "s" NumOrAuto.auto StrOrAuto.auto) 0 =
        .ok { text := none }) ∧
    (({ text := none } : TextResponse).text = none ∨
        ({ text := none } : TextResponse).text = some "") ∧
    parseStub emptyObjLit = .ok (Json.obj []) ∧
    (analyzeStory remoteEmptyBody parseStub "s" NumOrAuto.auto
        StrOrAuto.auto).result =
      .ok { scenes := none, characters := [], determinedTone := none,
            determinedCount := none } := by
  refine ⟨rfl, Or.inl rfl, rfl, ?_⟩
  exact analyzeStory_empty_body_empty_result remoteEmptyBody parseStub "s"
    NumOrAuto.auto StrOrAuto.auto { text := none } rfl (Or.inl rfl) rfl

/-- A model body that ignores the requested explicit count/tone. -/
def analyzeRespBodyC4 : Json :=
  .obj [("determinedTone", .str "pastel"), ("determinedCount", .num 7),
        ("scenes", .arr []), ("characters", .arr [])]

/-- Parse oracle for the C4 counterexample body. -/
def parseC4 : String → Except ApiError Json := fun s =>
  if s = "BODY_C4" then .ok analyzeRespBodyC4 else .error parseFailErr

/-- Remote text model returning the C4 counterexample body. -/
def remoteC4 : String → Nat → Except ApiError TextResponse := fun _ _ =>
  .ok { text := some "BODY_C4" }

/-- C4 counterexample: with explicit sceneCount 10 and tone "noir" but a
model response carrying determinedCount 7 / determinedTone "pastel",
`analyzeStory` returns the model's values — the explicit inputs are not
echoed back by the code. -/
theorem analyzeStory_explicit_values_not_echoed :
    (analyzeStory remoteC4 parseC4 "story" (NumOrAuto.num 10)
        (StrOrAuto.str "noir")).result =
      .ok { scenes := some (.arr []), characters := [],
            determinedTone := some (.str "pastel"),
            determinedCount := some (.num 7) } ∧
    (some (Json.num 7) ≠ some (Json.num 10)) ∧
    (some (Json.str "pastel") ≠ some (Json.str "noir")) := by
  refine ⟨rfl, ?_, ?_⟩
  · intro h
    simp only [Option.some.injEq, Json.num.injEq] at h
    omega
  · intro h
    simp only [Option.some.injEq, Json.str.injEq] at h
    exact absurd h (by decide)

/-- C4 (amended): `analyzeStory` passes the model's
determinedTone/determinedCount fields through unchanged; in particular,
when the model echoes the explicit values N and T — as the fixed
`countInstruction`/`toneInstruction` direct it to — the result carries
exactly N and T. -/
theorem analyzeStory_passes_through_model_fields
    (remote : String → Nat → Except ApiError TextResponse)
    (parse : String → Except ApiError Json) (story : String) (N : Int)
    (T : String) (resp : TextResponse) (p : Json) (cs : List CharacterR)
    (hremote : remote (analyzeContents story (NumOrAuto.num N)
        (StrOrAuto.str T)) 0 = .ok resp)
    (hparse : parse (bodyTextOf resp) = .ok p)
    (hcs : extractCharacters (getField p "characters") = .ok cs)
    (hN : getField p "determinedCount" = some (Json.num N))
    (hT : getField p "determinedTone" = some (Json.str T)) :
    (analyzeStory remote parse story (NumOrAuto.num N)
        (StrOrAuto.str T)).result =
      .ok { scenes := getField p "scenes", characters := cs,
            determinedTone := some (Json.str T),
            determinedCount := some (Json.num N) } := by
  unfold analyzeStory
  have hok : (fun n =>
      match remote (analyzeContents story (NumOrAuto.num N)
          (StrOrAuto.str T)) n with
      | .error e => (.error e : Except ApiError AnalyzeResult)
      | .ok r => analyzeStoryBody parse r) 0 =
      .ok { scenes := getField p "scenes", characters := cs,
            determinedTone := some (Json.str T),
            determinedCount := some (Json.num N) } := by
    simp only [hremote]
    simp [analyzeStoryBody, hparse, hcs, hN, hT]
  rw [callWithRetry_ok _ 4 5000 0 hok]

/-- A model body echoing the explicit count 10 and tone "noir". -/
def analyzeRespBodyC4E : Json :=
  .obj [("determinedTone", .str "noir"), ("determinedCount", .num 10),
        ("scenes", .arr []), ("characters", .arr [])]

/-- Parse oracle for the echoing body. -/
def parseC4E : String → Except ApiError Json := fun s =>
  if s = "BODY_C4E" then .ok analyzeRespBodyC4E else .error parseFailErr

/-- Remote text model returning the echoing body. -/
def remoteC4E : String → Nat → Except ApiError TextResponse := fun _ _ =>
  .ok { text := some "BODY_C4E" }

/-- Witness for the pass-through theorem on an echoing model response. -/
theorem analyzeStory_passes_through_model_fields_witness :
    (remoteC4E (analyzeContents "story" (NumOrAuto.num 10)
        (StrOrAuto.str "noir")) 0 = .ok { text := some "BODY_C4E" }) ∧
    parseC4E (bodyTextOf { text := some "BODY_C4E" }) = .ok analyzeRespBodyC4E ∧
    extractCharacters (getField analyzeRespBodyC4E "characters") = .ok [] ∧
    getField analyzeRespBodyC4E "determinedCount" = some (Json.num 10) ∧
    getField analyzeRespBodyC4E "determinedTone" = some (Json.str "noir") ∧
    (analyzeStory remoteC4E parseC4E "story" (NumOrAuto.num 10)
        (StrOrAuto.str "noir")).result =
      .ok { scenes := some (.arr []), characters := [],
            determinedTone := some (Json.str "noir"),
            determinedCount := some (Json.num 10) } := by
  refine ⟨rfl, rfl, rfl, rfl, rfl, ?_⟩
  exact analyzeStory_passes_through_model_fields remoteC4E parseC4E "story" 10
    "noir" { text := some "BODY_C4E" } analyzeRespBodyC4E [] rfl rfl rfl rfl rfl

/-- C5: for both image operations — on a response whose first inline
part is an `image/png` with base64 payload P, the result is exactly
`data:image/png;base64,` followed by P; on a response with no inline
part, both fail in a single attempt with the terminal "no image data"
error. -/
theorem image_ops_first_inline_or_no_image
    (remote : List GenPart → Nat → Except ApiError ImageResponse)
    (resp : ImageResponse) (c : Character) (scene : Scene)
    (chars : List Character) (tone styleTags : String)
    (sliders : Option SceneSliders) (useStoryText : Bool) (P : String)
    (hremote : ∀ parts n, remote parts n = .ok resp) :
    (firstInline (responseParts resp) = some ("image/png", P) →
      (generateCharacterSheet remote c tone styleTags).result =
        .ok ("data:image/png;base64," ++ P) ∧
      (generateSceneImage remote scene chars tone styleTags sliders
          useStoryText).result = .ok ("data:image/png;base64," ++ P)) ∧
    (firstInline (responseParts resp) = none →
      generateCharacterSheet remote c tone styleTags =
        { result := .error noImageError, attempts := 1, delays := [] } ∧
      generateSceneImage remote scene chars tone styleTags sliders
          useStoryText =
        { result := .error noImageError, attempts := 1, delays := [] }) := by
  constructor
  · intro hfi
    have hext : extractImageUrl resp = .ok ("data:image/png;base64," ++ P) := by
      simp [extractImageUrl, hfi]
    constructor
    · unfold generateCharacterSheet
      have hok : (fun n =>
          match remote (characterSheetParts c tone styleTags) n with
          | .error e => (.error e : Except ApiError String)
          | .ok r => extractImageUrl r) 0 =
          .ok ("data:image/png;base64," ++ P) := by
        simp only [hremote]
        exact hext
      rw [callWithRetry_ok _ 4 5000 0 hok]
    · unfold generateSceneImage
      have hok : (fun n =>
          match remote [GenPart.text (scenePrompt scene chars tone styleTags
              sliders useStoryText)] n with
          | .error e => (.error e : Except ApiError String)
          | .ok r => extractImageUrl r) 0 =
          .ok ("data:image/png;base64," ++ P) := by
        simp only [hremote]
        exact hext
      rw [callWithRetry_ok _ 4 5000 0 hok]
  · intro hfi
    have hext : extractImageUrl resp = .error noImageError := by
      simp [extractImageUrl, hfi]
    have hnr : isRetryable noImageError = false := by decide
    constructor
    · unfold generateCharacterSheet
      have herr : (fun n =>
          match remote (characterSheetParts c tone styleTags) n with
          | .error e => (.error e : Except ApiError String)
          | .ok r => extractImageUrl r) 0 = .error noImageError := by
        simp only [hremote]
        exact hext
      exact callWithRetry_nonretryable _ 4 5000 0 herr hnr
    · unfold generateSceneImage
      have herr : (fun n =>
          match remote [GenPart.text (scenePrompt scene chars tone styleTags
              sliders useStoryText)] n with
          | .error e => (.error e : Except ApiError String)
          | .ok r => extractImageUrl r) 0 = .error noImageError := by
        simp only [hremote]
        exact hext
      exact callWithRetry_nonretryable _ 4 5000 0 herr hnr

/-- Content holding a text part and then an inline PNG. -/
def contentW : Content :=
  { parts := some [GenPart.text "here you go",
                   GenPart.inlineData "image/png" "PAYLOAD"] }

/-- A candidate wrapping `contentW`. -/
def candidateW : Candidate := { content := some contentW }

/-- An image response whose single candidate is `candidateW`. -/
def respImgW : ImageResponse := { candidates := some [candidateW] }

/-- A remote image model always answering with `respImgW`. -/
def remoteImgW : List GenPart → Nat → Except ApiError ImageResponse :=
  fun _ _ => .ok respImgW

/-- A plain character used by image-operation witnesses. -/
def charW : Character :=
  { id := "c1", name := "Maya", description := "a curious fox",
    sheetUrl := none, uploadUrl := none, isGenerating := none,
    tweaks := emptyTweaks }

/-- A plain scene used by image-operation witnesses. -/
def sceneW : Scene :=
  { id := 1, description := "a misty forest", storyText := "Once upon a time",
    imageUrl := none, isGenerating := none, sliders := none }

/-- Witness for the image-operation theorem on a concrete inline-PNG
response. -/
theorem image_ops_first_inline_or_no_image_witness :
    (∀ parts n, remoteImgW parts n = .ok respImgW) ∧
    firstInline (responseParts respImgW) = some ("image/png", "PAYLOAD") ∧
    (generateCharacterSheet remoteImgW charW "noir" "bold shapes").result =
      .ok ("data:image/png;base64," ++ "PAYLOAD") ∧
    (generateSceneImage remoteImgW sceneW [charW] "noir" "bold shapes" none
        false).result = .ok ("data:image/png;base64," ++ "PAYLOAD") := by
  have h := (image_ops_first_inline_or_no_image remoteImgW respImgW charW
    sceneW [charW] "noir" "bold shapes" none false "PAYLOAD"
    (fun _ _ => rfl)).1 rfl
  exact ⟨fun _ _ => rfl, rfl, h.1, h.2⟩

/-- C9: a truthy `uploadUrl` that does not match the embedded-image-data
pattern is silently ignored — the request is text-only and the call
proceeds normally — while a matching `uploadUrl` contributes its decoded
image part ahead of the text prompt. -/
theorem uploadUrl_pattern_handling (c : Character) (tone styleTags : String)
    (u mime payload m2 p2 : String)
    (remote : List GenPart → Nat → Except ApiError ImageResponse)
    (resp : ImageResponse) :
    (c.uploadUrl = some u → matchDataImage u = none →
      characterSheetParts c tone styleTags =
        [GenPart.text (characterSheetTextPrompt c tone styleTags)]) ∧
    (c.uploadUrl = some u → matchDataImage u = some (mime, payload) →
      characterSheetParts c tone styleTags =
        [GenPart.inlineData mime payload,
         GenPart.text (characterSheetTextPrompt c tone styleTags)]) ∧
    (c.uploadUrl = some u → matchDataImage u = none →
      (∀ n, remote [GenPart.text (characterSheetTextPrompt c tone styleTags)] n
          = .ok resp) →
      firstInline (responseParts resp) = some (m2, p2) →
      (generateCharacterSheet remote c tone styleTags).result =
        .ok ("data:image/png;base64," ++ p2)) := by
  have h1 : c.uploadUrl = some u → matchDataImage u = none →
      characterSheetParts c tone styleTags =
        [GenPart.text (characterSheetTextPrompt c tone styleTags)] := by
    intro hu hm
    by_cases hu0 : u = "" <;> simp [characterSheetParts, hu, hm, hu0]
  refine ⟨h1, ?_, ?_⟩
  · intro hu hm
    have hne : u ≠ "" := by
      intro h0
      rw [h0] at hm
      have hnone : matchDataImage "" = none := rfl
      rw [hnone] at hm
      simp at hm
    simp [characterSheetParts, hu, hne, hm]
  · intro hu hm hrem hfi
    unfold generateCharacterSheet
    rw [h1 hu hm]
    have hok : (fun n =>
        match remote [GenPart.text (characterSheetTextPrompt c tone styleTags)] n with
        | .error e => (.error e : Except ApiError String)
        | .ok r => extractImageUrl r) 0 =
        .ok ("data:image/png;base64," ++ p2) := by
      simp only [hrem]
      simp [extractImageUrl, hfi]
    rw [callWithRetry_ok _ 4 5000 0 hok]

/-- A character whose reference upload uses a plain https URL. -/
def charHttpW : Character :=
  { charW with uploadUrl := some "https://example.com/pic.png" }

/-- Witness for the upload-pattern theorem: an https upload is ignored
and the request stays text-only. -/
theorem uploadUrl_pattern_handling_witness :
    charHttpW.uploadUrl = some "https://example.com/pic.png" ∧
    matchDataImage "https://example.com/pic.png" = none ∧
    characterSheetParts charHttpW "noir" "bold shapes" =
      [GenPart.text (characterSheetTextPrompt charHttpW "noir" "bold shapes")] := by
  refine ⟨rfl, rfl, ?_⟩
  exact (uploadUrl_pattern_handling charHttpW "noir" "bold shapes"
    "https://example.com/pic.png" "" "" "" "" remoteImgW respImgW).1 rfl rfl

/-- `handleError` only touches the error banner. -/
theorem handleError_preserves (e : ApiError) (s : AppState) :
    (handleError e s).characters = s.characters ∧
    (handleError e s).scenes = s.scenes ∧
    (handleError e s).step = s.step ∧
    (handleError e s).params = s.params := by
  unfold handleError
  split <;> exact ⟨rfl, rfl, rfl, rfl⟩

/-- An accepted reset produces the blank Input-phase session. -/
theorem handleReset_confirmed (s : AppState) :
    handleReset true s =
      { s with step := .input, characters := [], scenes := [],
               params := defaultParams, errorMessage := none } := by
  simp [handleReset]

/-- The failure continuation on a state with no characters changes only
the error banner. -/
theorem finishErr_on_empty (charId : String) (e : ApiError) (s : AppState)
    (hc : s.characters = []) :
    (handleGenerateCharacterFinishErr charId e s).characters = [] ∧
    (handleGenerateCharacterFinishErr charId e s).scenes = s.scenes ∧
    (handleGenerateCharacterFinishErr charId e s).step = s.step ∧
    (handleGenerateCharacterFinishErr charId e s).params = s.params := by
  obtain ⟨h1, h2, h3, h4⟩ := handleError_preserves e s
  unfold handleGenerateCharacterFinishErr
  refine ⟨?_, h2, h3, h4⟩
  simp [clearCharGenerating, h1, hc]

/-- C7: resetting while a character generation is in flight returns the
session to Input with empty entity lists, and when the stale promise
later resolves (either way) its id-keyed completion mutates no entity:
the lists, step and params of the reset state are untouched. -/
theorem reset_then_stale_completion_noop (st : AppState) (charId url : String)
    (e : ApiError) :
    (handleReset true (handleGenerateCharacterStart charId st)).step =
        AppStep.input ∧
    (handleReset true (handleGenerateCharacterStart charId st)).characters = [] ∧
    (handleReset true (handleGenerateCharacterStart charId st)).scenes = [] ∧
    (handleGenerateCharacterFinishOk charId url
        (handleReset true (handleGenerateCharacterStart charId st))).characters = [] ∧
    (handleGenerateCharacterFinishOk charId url
        (handleReset true (handleGenerateCharacterStart charId st))).scenes = [] ∧
    (handleGenerateCharacterFinishOk charId url
        (handleReset true (handleGenerateCharacterStart charId st))).step =
        AppStep.input ∧
    (handleGenerateCharacterFinishOk charId url
        (handleReset true (handleGenerateCharacterStart charId st))).params =
        defaultParams ∧
    (handleGenerateCharacterFinishOk charId url
        (handleReset true (handleGenerateCharacterStart charId st))).errorMessage =
        none ∧
    (handleGenerateCharacterFinishErr charId e
        (handleReset true (handleGenerateCharacterStart charId st))).characters = [] ∧
    (handleGenerateCharacterFinishErr charId e
        (handleReset true (handleGenerateCharacterStart charId st))).scenes = [] ∧
    (handleGenerateCharacterFinishErr charId e
        (handleReset true (handleGenerateCharacterStart charId st))).step =
        AppStep.input ∧
    (handleGenerateCharacterFinishErr charId e
        (handleReset true (handleGenerateCharacterStart charId st))).params =
        defaultParams := by
  obtain ⟨f1, f2, f3, f4⟩ := finishErr_on_empty charId e
    (handleReset true (handleGenerateCharacterStart charId st))
    (by rw [handleReset_confirmed])
  refine ⟨?_, ?_, ?_, ?_, ?_, ?_, ?_, ?_, f1, ?_, ?_, ?_⟩
  · rw [handleReset_confirmed]
  · rw [handleReset_confirmed]
  · rw [handleReset_confirmed]
  · rw [handleReset_confirmed]; rfl
  · rw [handleReset_confirmed]; rfl
  · rw [handleReset_confirmed]; rfl
  · rw [handleReset_confirmed]; rfl
  · rw [handleReset_confirmed]; rfl
  · rw [f2, handleReset_confirmed]
  · rw [f3, handleReset_confirmed]
  · rw [f4, handleReset_confirmed]

/-- The hero character present during the failing batch. -/
def charHero : Character :=
  { id := "hero", name := "Hero", description := "a brave kid",
    sheetUrl := some "data:image/png;base64,SHEET", uploadUrl := none,
    isGenerating := none, tweaks := emptyTweaks }

/-- Scene A of the failing batch. -/
def sceneA1 : Scene :=
  { id := 1, description := "dawn over the village", storyText := "Page one",
    imageUrl := none, isGenerating := none,
    sliders := some { tone := 5, excitement := 5, happiness := 5, energy := 5,
                      tension := 5 } }

/-- Scene B of the failing batch (its generation fails). -/
def sceneB2 : Scene :=
  { id := 2, description := "the storm arrives", storyText := "Page two",
    imageUrl := none, isGenerating := none,
    sliders := some { tone := 5, excitement := 5, happiness := 5, energy := 5,
                      tension := 5 } }

/-- Scene C of the failing batch (never attempted). -/
def sceneC3 : Scene :=
  { id := 3, description := "a quiet ending", storyText := "Page three",
    imageUrl := none, isGenerating := none,
    sliders := some { tone := 5, excitement := 5, happiness := 5, energy := 5,
                      tension := 5 } }

/-- The quota error thrown while generating scene B. -/
def quotaErrC1 : ApiError :=
  { message := some "429 RESOURCE_EXHAUSTED", str := "", status := some 429 }

/-- The session state from which the failing batch starts. -/
def stC1 : AppState :=
  { step := .characters, loading := false, errorMessage := none,
    sessionUsage := 0,
    params := { story := "a tale", ageGroup := .a5to7, tone := .str "noir",
                sceneCount := .num 3 },
    characters := [charHero], scenes := [sceneA1, sceneB2, sceneC3] }

/-- Resolved generation outcomes: scene 2 fails, the others succeed. -/
def genC1 : SceneImageArgs → Except ApiError String := fun a =>
  if a.scene.id == 2 then .error quotaErrC1
  else .ok ("url" ++ toString a.scene.id)

/-- C1 evaluated on scenes [A, B, C] with B failing: A ends with its
image and a cleared flag, the failure is surfaced, C is never attempted
(only scenes 1 and 2 are invoked), the batch flag clears — but scene B
is left with `isGenerating = true`: the catch of `generateAllScenes`
never clears the failing scene's flag. -/
theorem generateAllScenes_failure_leaves_flag :
    (generateAllScenes genC1 stC1).1.scenes =
      [{ sceneA1 with imageUrl := some "url1", isGenerating := some false },
       { sceneB2 with isGenerating := some true },
       sceneC3] ∧
    (generateAllScenes genC1 stC1).1.errorMessage = some quotaMessage ∧
    ((generateAllScenes genC1 stC1).2.map fun a => a.scene.id) = [1, 2] ∧
    (generateAllScenes genC1 stC1).1.loading = false ∧
    (generateAllScenes genC1 stC1).1.step = AppStep.scenes ∧
    (generateAllScenes genC1 stC1).1.sessionUsage = 1 := by
  exact ⟨rfl, rfl, rfl, rfl, rfl, rfl⟩

/-- Every invocation recorded by the batch loop passed neither sliders
nor a story-text flag. -/
theorem genScenesLoop_trace_no_sliders
    (gen : SceneImageArgs → Except ApiError String) :
    ∀ (snap : List Scene) (st : AppState) (a : SceneImageArgs),
      a ∈ (genScenesLoop gen snap st).2 →
      a.sliders = none ∧ a.useStoryText = false := by
  intro snap
  induction snap with
  | nil =>
    intro st a ha
    simp [genScenesLoop] at ha
  | cons scene rest ih =>
    intro st a ha
    simp only [genScenesLoop] at ha
    split at ha
    · exact ih st a ha
    · split at ha
      · simp only [] at ha
        rcases List.mem_cons.1 ha with h | h
        · subst h
          exact ⟨rfl, rfl⟩
        · exact ih _ a h
      · simp only [List.mem_singleton] at ha
        subst ha
        exact ⟨rfl, rfl⟩

/-- C10: the batch loop invokes `generateSceneImage` with no sliders
argument (so `sliderContext` contributes nothing to its prompt, even for
scenes that own a sliders vector), while single-scene regeneration
passes the scene's own sliders; the atmosphere clause is exactly the
`sliderContext` factor of `scenePrompt` and is empty iff no sliders are
passed. -/
theorem batch_prompt_omits_atmosphere :
    (∀ (gen : SceneImageArgs → Except ApiError String) (st : AppState)
        (a : SceneImageArgs), a ∈ (generateAllScenes gen st).2 →
        a.sliders = none ∧ a.useStoryText = false) ∧
    (∀ (gen : SceneImageArgs → Except ApiError String) (sceneId : Int)
        (useST : Bool) (st : AppState) (scene : Scene),
        st.scenes.find? (fun s => s.id == sceneId) = some scene →
        ∀ a ∈ (handleRegenerateScene gen sceneId useST st).2,
          a.sliders = scene.sliders) ∧
    sliderContext none = "" ∧
    (∀ v : SceneSliders, sliderContext (some v) =
      " Atmosphere: Tone:" ++ toString v.tone ++
        ", Excitement:" ++ toString v.excitement ++
        ", Happiness:" ++ toString v.happiness ++
        ", Energy:" ++ toString v.energy ++
        ", Tension:" ++ toString v.tension ++ ".") ∧
    (∀ (scene : Scene) (chars : List Character) (tone tags : String)
        (sl : Option SceneSliders) (u : Bool),
        scenePrompt scene chars tone tags sl u =
          scenePromptHead scene chars tone tags u ++ sliderContext sl ++
            " Consistent character appearances. 4K quality.") := by
  refine ⟨?_, ?_, rfl, fun v => rfl, fun scene chars tone tags sl u => rfl⟩
  · intro gen st a ha
    exact genScenesLoop_trace_no_sliders gen st.scenes _ a ha
  · intro gen sceneId useST st scene hfind a ha
    unfold handleRegenerateScene at ha
    simp only [hfind] at ha
    split at ha <;>
      · simp at ha
        subst ha
        rfl

/-- A scene that owns a sliders vector, awaiting its batch image. -/
def sceneS7 : Scene :=
  { id := 7, description := "a sunny meadow", storyText := "The end",
    imageUrl := none, isGenerating := none,
    sliders := some { tone := 3, excitement := 4, happiness := 5, energy := 6,
                      tension := 7 } }

/-- Session state holding only `sceneS7`. -/
def stW10 : AppState :=
  { step := .characters, loading := false, errorMessage := none,
    sessionUsage := 0,
    params := { story := "a tale", ageGroup := .a5to7, tone := .str "noir",
                sceneCount := .num 1 },
    characters := [], scenes := [sceneS7] }

/-- The invocation the batch records for `sceneS7`. -/
def argsW10 : SceneImageArgs :=
  { scene := sceneS7, characters := [], tone := "noir",
    styleTags := AGE_STYLE_TAGS .a5to7, sliders := none,
    useStoryText := false }

/-- Witness: the batch invocation for a scene that owns sliders still
passes none. -/
theorem batch_prompt_omits_atmosphere_witness :
    argsW10 ∈ (generateAllScenes (fun _ => .ok "img") stW10).2 ∧
    argsW10.sliders = none ∧ argsW10.useStoryText = false ∧
    sceneS7.sliders = some { tone := 3, excitement := 4, happiness := 5,
                             energy := 6, tension := 7 } := by
  have hm : (generateAllScenes (fun _ => .ok "img") stW10).2 = [argsW10] := rfl
  have hmem : argsW10 ∈ (generateAllScenes (fun _ => .ok "img") stW10).2 := by
    rw [hm]
    exact List.Mem.head _
  have h := batch_prompt_omits_atmosphere.1 (fun _ => .ok "img") stW10 argsW10 hmem
  exact ⟨hmem, h.1, h.2, rfl⟩
